import Mathlib

/-!
Verification of the theme-negotiation procedure of
src/platform_impl/windows/dark_mode.rs and of the cursor-position query of
src/platform_impl/linux/util.rs, as a shallow embedding.

The Windows module performs dynamic entry-point lookups (by ordinal into
uxtheme.dll, by name into ntdll.dll / user32.dll) and queries ambient OS
state.  We embed it as pure functions over an explicit environment `WinEnv`
capturing the results of those lookups and queries, and make every OS
mutation call observable as an element of a trace (`List OsCall`) returned
alongside the resolved theme.
-/

/-- Modelled from the spec: `crate::window::Theme`, the EffectiveTheme
`{Light, Dark}` resolved and returned by the negotiation procedure.  The
type itself lives outside the provided sources; only its two variants and
derived equality are used by dark_mode.rs. -/
inductive Theme where
  | Light
  | Dark
deriving DecidableEq, BEq, Repr

/-- The `PreferredAppMode` enum of dark_mode.rs (only the two variants the
code constructs; `ForceDark`, `ForceLight`, `Max` are commented out in the
source). -/
inductive PreferredAppMode where
  | Default
  | AllowDark
deriving DecidableEq, BEq, Repr

/-- One OS mutation call attempted by the module, recorded in a trace.
Read-only queries (ShouldAppsUseDarkMode, IsDarkModeAllowedForWindow,
SystemParametersInfoA) are not mutations and are modelled as environment
lookups instead. -/
inductive OsCall where
  | allowDarkModeForAppCall (is_dark_mode : Bool)
  | setPreferredAppModeCall (mode : PreferredAppMode)
  | refreshImmersiveColorPolicyStateCall
  | allowDarkModeForWindowCall (hwnd : Nat) (is_dark_mode : Bool)
  | setPropWCall (hwnd : Nat) (dark : Bool)
  | setWindowCompositionAttributeCall (hwnd : Nat) (dark : Bool)
deriving DecidableEq, BEq, Repr

/-- Result of a successful `RtlGetVersion` dynamic call: the returned NTSTATUS
and the fields of the filled-in OSVERSIONINFOW that the code reads. -/
structure RtlVersionResult where
  status : Int
  dwMajorVersion : Nat
  dwMinorVersion : Nat
  dwBuildNumber : Nat
deriving DecidableEq, Repr

/-- Ambient OS state and dynamic-lookup outcomes that dark_mode.rs observes.
`rtlGetVersion = none` models a missing ntdll entry point; `huxthemeValid`
models `!HUXTHEME.is_invalid()` (uxtheme.dll loaded);
`uxthemeOrdinalFound o` models `GetProcAddress(HUXTHEME, o)` succeeding;
`setWindowCompositionAttributeFound` models the user32.dll named lookup;
the `...Result` fields are the values the corresponding entry points return
when present; `spiGetHighContrastOk` and `highContrastFlags` model the
`SystemParametersInfoA(SPI_GETHIGHCONTRAST, ...)` call outcome and the
`dwFlags` it writes. -/
structure WinEnv where
  rtlGetVersion : Option RtlVersionResult
  huxthemeValid : Bool
  uxthemeOrdinalFound : Nat → Bool
  setWindowCompositionAttributeFound : Bool
  shouldAppsUseDarkModeResult : Bool
  isDarkModeAllowedForWindowResult : Nat → Bool
  spiGetHighContrastOk : Bool
  highContrastFlags : Nat

def UXTHEME_ALLOWDARKMODEFORAPP_ORDINAL : Nat := 135

def UXTHEME_SETPREFERREDAPPMODE_ORDINAL : Nat := 135

def UXTHEME_REFRESHIMMERSIVECOLORPOLICYSTATE_ORDINAL : Nat := 104

def UXTHEME_ALLOWDARKMODEFORWINDOW_ORDINAL : Nat := 133

def UXTHEME_ISDARKMODEALLOWEDFORWINDOW_ORDINAL : Nat := 137

def UXTHEME_SHOULDAPPSUSEDARKMODE_ORDINAL : Nat := 132

def HCF_HIGHCONTRASTON : Nat := 1

/-- The uxtheme ordinal lookup pattern shared by every `Lazy` static in the
module: `None` when `HUXTHEME.is_invalid()`, otherwise the outcome of
`GetProcAddress(*HUXTHEME, ordinal)`.  `true` means the entry point
resolved. -/
def getUxthemeProc (env : WinEnv) (ordinal : Nat) : Bool :=
  if env.huxthemeValid then env.uxthemeOrdinalFound ordinal else false

/-- `WIN10_BUILD_VERSION`: calls RtlGetVersion when present; yields the build
number only when the status is non-negative and the version is 10.0. -/
def WIN10_BUILD_VERSION (env : WinEnv) : Option Nat :=
  match env.rtlGetVersion with
  | some vi =>
    if 0 ≤ vi.status ∧ vi.dwMajorVersion = 10 ∧ vi.dwMinorVersion = 0 then
      some vi.dwBuildNumber
    else
      none
  | none => none

/-- `DARK_MODE_SUPPORTED`: build 17763 (Windows 10 October 2018 update) is
the first with the dark-mode API surface. -/
def DARK_MODE_SUPPORTED (env : WinEnv) : Bool :=
  match WIN10_BUILD_VERSION env with
  | some v => decide (17763 ≤ v)
  | none => false

/-- `ALLOW_DARK_MODE_FOR_APP` static: whether the legacy per-process toggle
entry point resolved. -/
def ALLOW_DARK_MODE_FOR_APP_found (env : WinEnv) : Bool :=
  getUxthemeProc env UXTHEME_ALLOWDARKMODEFORAPP_ORDINAL

/-- `SET_PREFERRED_APP_MODE` static: whether the preferred-app-mode entry
point resolved. -/
def SET_PREFERRED_APP_MODE_found (env : WinEnv) : Bool :=
  getUxthemeProc env UXTHEME_SETPREFERREDAPPMODE_ORDINAL

/-- `should_apps_use_dark_mode`: the uxtheme query, defaulting to `false`
when the entry point is missing (`unwrap_or(false)`). -/
def should_apps_use_dark_mode (env : WinEnv) : Bool :=
  if getUxthemeProc env UXTHEME_SHOULDAPPSUSEDARKMODE_ORDINAL then
    env.shouldAppsUseDarkModeResult
  else
    false

/-- `is_high_contrast`: `SystemParametersInfoA(SPI_GETHIGHCONTRAST, ...)`
succeeded and the HCF_HIGHCONTRASTON bit is set in the returned flags. -/
def is_high_contrast (env : WinEnv) : Bool :=
  env.spiGetHighContrastOk && decide ((HCF_HIGHCONTRASTON &&& env.highContrastFlags) ≠ 0)

/-- `should_use_dark_mode`: apps-should-use-dark flag and not high
contrast. -/
def should_use_dark_mode (env : WinEnv) : Bool :=
  should_apps_use_dark_mode env && !is_high_contrast env

/-- `is_dark_mode_allowed_for_window`: the per-window uxtheme query,
defaulting to `false` when the entry point (ordinal 137) is missing. -/
def is_dark_mode_allowed_for_window (env : WinEnv) (hwnd : Nat) : Bool :=
  if getUxthemeProc env UXTHEME_ISDARKMODEALLOWEDFORWINDOW_ORDINAL then
    env.isDarkModeAllowedForWindowResult hwnd
  else
    false

/-- `allow_dark_mode_for_app`: on builds < 18362 invoke the legacy toggle
(when resolved); on builds ≥ 18362 invoke SetPreferredAppMode (when
resolved) with `AllowDark`/`Default`; no build version means no call. -/
def allow_dark_mode_for_app (env : WinEnv) (is_dark_mode : Bool) : List OsCall :=
  match WIN10_BUILD_VERSION env with
  | some ver =>
    if ver < 18362 then
      if ALLOW_DARK_MODE_FOR_APP_found env then
        [OsCall.allowDarkModeForAppCall is_dark_mode]
      else
        []
    else
      if SET_PREFERRED_APP_MODE_found env then
        [OsCall.setPreferredAppModeCall
          (if is_dark_mode then PreferredAppMode.AllowDark else PreferredAppMode.Default)]
      else
        []
  | none => []

/-- `refresh_immersive_color_policy_state`: best-effort call, silently
skipped when ordinal 104 is missing. -/
def refresh_immersive_color_policy_state (env : WinEnv) : List OsCall :=
  if getUxthemeProc env UXTHEME_REFRESHIMMERSIVECOLORPOLICYSTATE_ORDINAL then
    [OsCall.refreshImmersiveColorPolicyStateCall]
  else
    []

/-- `try_app_theme`: resolves the effective app theme and performs the OS
calls; returns the theme together with the trace of mutation calls. -/
def try_app_theme (env : WinEnv) (preferred_theme : Option Theme) : Theme × List OsCall :=
  if DARK_MODE_SUPPORTED env then
    let is_dark_mode :=
      match preferred_theme with
      | some theme => theme == Theme.Dark
      | none => should_use_dark_mode env
    ((match is_dark_mode with
      | true => Theme.Dark
      | false => Theme.Light),
      allow_dark_mode_for_app env is_dark_mode ++ refresh_immersive_color_policy_state env)
  else
    (Theme.Light, [])

/-- `allow_dark_mode_for_window`: double-guarded by DARK_MODE_SUPPORTED and
the ordinal-133 lookup. -/
def allow_dark_mode_for_window (env : WinEnv) (hwnd : Nat) (is_dark_mode : Bool) : List OsCall :=
  if DARK_MODE_SUPPORTED env then
    if getUxthemeProc env UXTHEME_ALLOWDARKMODEFORWINDOW_ORDINAL then
      [OsCall.allowDarkModeForWindowCall hwnd is_dark_mode]
    else
      []
  else
    []

/-- `refresh_titlebar_theme_color`: recomputes the titlebar color as
`should_use_dark_mode() && is_dark_mode_allowed_for_window(hwnd)`, then on
builds < 18362 sets the `UseImmersiveDarkModeColors` property via SetPropW
(a direct import, always called on that branch), and on builds ≥ 18362 uses
SetWindowCompositionAttribute with WCA_USEDARKMODECOLORS when that user32
entry point resolved. -/
def refresh_titlebar_theme_color (env : WinEnv) (hwnd : Nat) : List OsCall :=
  let dark := should_use_dark_mode env && is_dark_mode_allowed_for_window env hwnd
  match WIN10_BUILD_VERSION env with
  | some ver =>
    if ver < 18362 then
      [OsCall.setPropWCall hwnd dark]
    else
      if env.setWindowCompositionAttributeFound then
        [OsCall.setWindowCompositionAttributeCall hwnd dark]
      else
        []
  | none => []

/-- `try_window_theme`: resolves the effective window theme and performs the
OS calls; returns the theme together with the trace of mutation calls. -/
def try_window_theme (env : WinEnv) (hwnd : Nat) (preferred_theme : Option Theme) :
    Theme × List OsCall :=
  if DARK_MODE_SUPPORTED env then
    let is_dark_mode :=
      match preferred_theme with
      | some theme => theme == Theme.Dark
      | none => should_use_dark_mode env
    let theme := if is_dark_mode then Theme.Dark else Theme.Light
    (theme,
      allow_dark_mode_for_window env hwnd is_dark_mode ++ refresh_titlebar_theme_color env hwnd)
  else
    (Theme.Light, [])

/-- Whether a trace element is a titlebar-update call (either mechanism). -/
def isTitlebarCall : OsCall → Bool
  | OsCall.setPropWCall _ _ => true
  | OsCall.setWindowCompositionAttributeCall _ _ => true
  | _ => false

/-- The dark flag carried by a titlebar-update call; `false` for any other
call. -/
def titlebarDarkCall : OsCall → Bool
  | OsCall.setPropWCall _ dark => dark
  | OsCall.setWindowCompositionAttributeCall _ dark => dark
  | _ => false

/-!
Embedding of `cursor_position` from src/platform_impl/linux/util.rs.  The
GDK objects it queries (default display, its default seat, the seat's
pointer, the default group's scale factor) are modelled as an explicit
environment; floating-point coordinates are modelled as rationals.
-/

/-- A GDK pointer device: `position_double()` yields these coordinates. -/
structure GdkPointer where
  px : Rat
  py : Rat
deriving DecidableEq, Repr

/-- A GDK seat: `pointer()` may be absent. -/
structure GdkSeat where
  pointer : Option GdkPointer
deriving DecidableEq, Repr

/-- A GDK display: `default_seat()` may be absent; `default_group()` always
exists and exposes a scale factor (an i32 in the source). -/
structure GdkDisplay where
  default_seat : Option GdkSeat
  group_scale_factor : Int
deriving DecidableEq, Repr

/-- The GDK ambient state `cursor_position` can observe:
`Display::default()` may be absent. -/
structure LinuxEnv where
  display : Option GdkDisplay
deriving DecidableEq, Repr

/-- Modelled from the spec: the error type of `cursor_position`; the source
only ever constructs the one OS-error variant (`ExternalError::Os`). -/
inductive ExternalError where
  | Os
deriving DecidableEq, Repr

/-- `cursor_position`: on Wayland returns the physical position (0, 0)
without touching the display; otherwise queries the default display, seat
and pointer, converts the logical pointer position to physical coordinates
with the default group's scale factor, and fails with an OS error when the
display or the pointer is absent. -/
def cursor_position (env : LinuxEnv) (is_wayland : Bool) :
    Except ExternalError (Rat × Rat) :=
  if is_wayland then
    Except.ok (0, 0)
  else
    match env.display with
    | none => Except.error ExternalError.Os
    | some d =>
      match d.default_seat.bind GdkSeat.pointer with
      | none => Except.error ExternalError.Os
      | some p =>
        Except.ok (p.px * (d.group_scale_factor : Rat), p.py * (d.group_scale_factor : Rat))

/-- Whether a `cursor_position` result is a success. -/
def cursorResultOk : Except ExternalError (Rat × Rat) → Bool
  | Except.ok _ => true
  | Except.error _ => false

/-!
Concrete environments used by the witness theorems.
-/

/-- Environment where the RtlGetVersion entry point is missing: no build
version, capability unsupported. -/
def envNoVersion : WinEnv where
  rtlGetVersion := none
  huxthemeValid := true
  uxthemeOrdinalFound := fun _ => true
  setWindowCompositionAttributeFound := true
  shouldAppsUseDarkModeResult := true
  isDarkModeAllowedForWindowResult := fun _ => true
  spiGetHighContrastOk := true
  highContrastFlags := 0

/-- Supported environment, build 19000 (≥ 18362 generation): every entry
point present, system dark flag on, no high contrast, window allow-flag
on. -/
def envNewBuild : WinEnv where
  rtlGetVersion := some ⟨0, 10, 0, 19000⟩
  huxthemeValid := true
  uxthemeOrdinalFound := fun _ => true
  setWindowCompositionAttributeFound := true
  shouldAppsUseDarkModeResult := true
  isDarkModeAllowedForWindowResult := fun _ => true
  spiGetHighContrastOk := true
  highContrastFlags := 0

/-- Supported environment, build 17763 (legacy generation): every entry
point present, system dark flag on, no high contrast, window allow-flag
on. -/
def envLegacyBuild : WinEnv where
  rtlGetVersion := some ⟨0, 10, 0, 17763⟩
  huxthemeValid := true
  uxthemeOrdinalFound := fun _ => true
  setWindowCompositionAttributeFound := true
  shouldAppsUseDarkModeResult := true
  isDarkModeAllowedForWindowResult := fun _ => true
  spiGetHighContrastOk := true
  highContrastFlags := 0

/-- Supported environment where the window allow-flag query answers `false`
for every window, with the system dark flag on. -/
def envWindowNotAllowed : WinEnv where
  rtlGetVersion := some ⟨0, 10, 0, 19000⟩
  huxthemeValid := true
  uxthemeOrdinalFound := fun _ => true
  setWindowCompositionAttributeFound := true
  shouldAppsUseDarkModeResult := true
  isDarkModeAllowedForWindowResult := fun _ => false
  spiGetHighContrastOk := true
  highContrastFlags := 0

/-- Supported environment with high contrast active and the system dark flag
on. -/
def envHighContrast : WinEnv where
  rtlGetVersion := some ⟨0, 10, 0, 19000⟩
  huxthemeValid := true
  uxthemeOrdinalFound := fun _ => true
  setWindowCompositionAttributeFound := true
  shouldAppsUseDarkModeResult := true
  isDarkModeAllowedForWindowResult := fun _ => true
  spiGetHighContrastOk := true
  highContrastFlags := 1

/-- Supported environment where the IsDarkModeAllowedForWindow entry point
(ordinal 137) is the only missing uxtheme export, system dark flag on. -/
def envMissing137 : WinEnv where
  rtlGetVersion := some ⟨0, 10, 0, 19000⟩
  huxthemeValid := true
  uxthemeOrdinalFound := fun o => decide (o ≠ 137)
  setWindowCompositionAttributeFound := true
  shouldAppsUseDarkModeResult := true
  isDarkModeAllowedForWindowResult := fun _ => true
  spiGetHighContrastOk := true
  highContrastFlags := 0

/-!
Claim theorems.
-/

/-- C1: for every preference value, when the dark-mode capability is
unsupported (build version absent or < 17763, i.e. `DARK_MODE_SUPPORTED` is
false), `try_app_theme` and `try_window_theme` both return `Light` and
attempt no OS mutation call (empty call trace). -/
theorem unsupported_returns_light_no_calls (env : WinEnv) (pref : Option Theme) (hwnd : Nat)
    (h : DARK_MODE_SUPPORTED env = false) :
    try_app_theme env pref = (Theme.Light, []) ∧
    try_window_theme env hwnd pref = (Theme.Light, []) := by
  constructor <;> simp [try_app_theme, try_window_theme, h]

/-- Witness for C1 at the environment with a missing RtlGetVersion entry
point. -/
theorem unsupported_returns_light_no_calls_witness :
    try_app_theme envNoVersion (some Theme.Dark) = (Theme.Light, []) ∧
    try_window_theme envNoVersion 1 (some Theme.Dark) = (Theme.Light, []) :=
  unsupported_returns_light_no_calls envNoVersion (some Theme.Dark) 1 (by decide)

/-- C2: the capability probe yields supported exactly when the version query
entry point is present, its call succeeds (non-negative status) with major
version 10 and minor version 0, and the build number is at least 17763; any
other outcome yields unsupported (and, the probe being a total boolean,
never an error). -/
theorem dark_mode_supported_characterization (env : WinEnv) :
    DARK_MODE_SUPPORTED env = true ↔
      ∃ vi, env.rtlGetVersion = some vi ∧ 0 ≤ vi.status ∧ vi.dwMajorVersion = 10 ∧
        vi.dwMinorVersion = 0 ∧ 17763 ≤ vi.dwBuildNumber := by
  unfold DARK_MODE_SUPPORTED WIN10_BUILD_VERSION
  cases hv : env.rtlGetVersion with
  | none =>
    simp
  | some vi =>
    by_cases hcond : 0 ≤ vi.status ∧ vi.dwMajorVersion = 10 ∧ vi.dwMinorVersion = 0
    · simp [hcond]
    · simp [hcond]
      intro h1 h2 h3
      exact absurd ⟨h1, h2, h3⟩ hcond

/-- C4: whenever the capability is supported, `try_app_theme` with
preference `Dark` resolves to `Dark`, for every combination of the system
dark-mode flag and the high-contrast flag (both live in `env`, which is
universally quantified). -/
theorem app_theme_dark_preference_wins (env : WinEnv)
    (h : DARK_MODE_SUPPORTED env = true) :
    (try_app_theme env (some Theme.Dark)).1 = Theme.Dark := by
  simp [try_app_theme, h]
  rfl

/-- Witness for C4 at a supported environment with dark flag on and high
contrast off. -/
theorem app_theme_dark_preference_wins_witness :
    (try_app_theme envNewBuild (some Theme.Dark)).1 = Theme.Dark :=
  app_theme_dark_preference_wins envNewBuild (by decide)

/-- C5: whenever the capability is supported and high contrast is active,
`try_app_theme` with preference `Unspecified` (`none`) resolves to `Light`,
even when the system dark-mode flag is true (the flag is unconstrained in
`env`); in particular the result is never `Dark`. -/
theorem app_theme_unspecified_high_contrast_light (env : WinEnv)
    (h1 : DARK_MODE_SUPPORTED env = true) (h2 : is_high_contrast env = true) :
    (try_app_theme env none).1 = Theme.Light := by
  simp [try_app_theme, h1, should_use_dark_mode, h2]

/-- Witness for C5 at a supported environment with high contrast active and
the system dark-mode flag true. -/
theorem app_theme_unspecified_high_contrast_light_witness :
    (try_app_theme envHighContrast none).1 = Theme.Light :=
  app_theme_unspecified_high_contrast_light envHighContrast (by decide) (by decide)

/-- C8: the ordinal used to resolve the legacy allow-dark-mode-for-app entry
point and the ordinal used to resolve the set-preferred-app-mode entry point
are the same value (135), so in every environment the two dynamic lookups
resolve the identical uxtheme export: one is present exactly when the other
is. -/
theorem shared_ordinal_135 (env : WinEnv) :
    UXTHEME_ALLOWDARKMODEFORAPP_ORDINAL = UXTHEME_SETPREFERREDAPPMODE_ORDINAL ∧
    UXTHEME_ALLOWDARKMODEFORAPP_ORDINAL = 135 ∧
    ALLOW_DARK_MODE_FOR_APP_found env = SET_PREFERRED_APP_MODE_found env :=
  ⟨rfl, rfl, rfl⟩

/-- C10: on Wayland, `cursor_position` always succeeds with the physical
position (0, 0), independently of the display state (it never queries the
display); on non-Wayland it succeeds exactly when the default display, its
default seat and the seat's pointer are all present, and otherwise returns
the OS error. -/
theorem cursor_position_wayland_and_error_reachability (env env2 : LinuxEnv) :
    cursor_position env true = Except.ok (0, 0) ∧
    cursor_position env true = cursor_position env2 true ∧
    cursorResultOk (cursor_position env false) =
      (env.display.bind (fun d => d.default_seat.bind GdkSeat.pointer)).isSome := by
  refine ⟨rfl, rfl, ?_⟩
  unfold cursor_position cursorResultOk
  cases hd : env.display with
  | none => simp
  | some d =>
    cases hp : d.default_seat.bind GdkSeat.pointer with
    | none => simp [hp]
    | some p => simp [hp]

/-!
Helper lemmas shared by the per-window claims.
-/

theorem refresh_titlebar_theme_color_cases (env : WinEnv) (hwnd : Nat) :
    refresh_titlebar_theme_color env hwnd = [] ∨
    refresh_titlebar_theme_color env hwnd =
      [OsCall.setPropWCall hwnd
        (should_use_dark_mode env && is_dark_mode_allowed_for_window env hwnd)] ∨
    refresh_titlebar_theme_color env hwnd =
      [OsCall.setWindowCompositionAttributeCall hwnd
        (should_use_dark_mode env && is_dark_mode_allowed_for_window env hwnd)] := by
  unfold refresh_titlebar_theme_color
  cases WIN10_BUILD_VERSION env with
  | none => exact Or.inl rfl
  | some ver =>
    by_cases hv : ver < 18362
    · simp [hv]
    · by_cases hw : env.setWindowCompositionAttributeFound
      · simp [hv, hw]
      · simp [hv, hw]

theorem allow_dark_mode_for_window_cases (env : WinEnv) (hwnd : Nat) (d : Bool) :
    allow_dark_mode_for_window env hwnd d = [] ∨
    allow_dark_mode_for_window env hwnd d = [OsCall.allowDarkModeForWindowCall hwnd d] := by
  unfold allow_dark_mode_for_window
  by_cases h1 : DARK_MODE_SUPPORTED env = true
  · by_cases h2 : getUxthemeProc env UXTHEME_ALLOWDARKMODEFORWINDOW_ORDINAL = true
    · simp [h1, h2]
    · simp [h1, h2]
  · simp [h1]

theorem try_window_theme_trace (env : WinEnv) (hwnd : Nat) (p : Option Theme)
    (hs : DARK_MODE_SUPPORTED env = true) :
    (try_window_theme env hwnd p).2 =
      allow_dark_mode_for_window env hwnd
        (match p with
          | some t => t == Theme.Dark
          | none => should_use_dark_mode env) ++
      refresh_titlebar_theme_color env hwnd := by
  simp [try_window_theme, hs]

theorem try_window_any_titlebarDark_false (env : WinEnv) (hwnd : Nat) (pref : Option Theme)
    (hallow : is_dark_mode_allowed_for_window env hwnd = false) :
    ((try_window_theme env hwnd pref).2.any titlebarDarkCall) = false := by
  have hdark : (should_use_dark_mode env && is_dark_mode_allowed_for_window env hwnd) = false := by
    rw [hallow, Bool.and_false]
  by_cases hs : DARK_MODE_SUPPORTED env = true
  · rw [try_window_theme_trace env hwnd pref hs, List.any_append]
    have h1 : (allow_dark_mode_for_window env hwnd
        (match pref with
          | some t => t == Theme.Dark
          | none => should_use_dark_mode env)).any titlebarDarkCall = false := by
      rcases allow_dark_mode_for_window_cases env hwnd
          (match pref with
            | some t => t == Theme.Dark
            | none => should_use_dark_mode env) with hc | hc <;>
        rw [hc] <;> simp [titlebarDarkCall]
    have h2 : (refresh_titlebar_theme_color env hwnd).any titlebarDarkCall = false := by
      rcases refresh_titlebar_theme_color_cases env hwnd with hc | hc | hc <;>
        rw [hc] <;> simp [titlebarDarkCall, hdark]
    rw [h1, h2]
    rfl
  · simp only [Bool.not_eq_true] at hs
    simp [try_window_theme, hs]

/-- C3: the titlebar color decision is the conjunction of
`should_use_dark_mode` with the window's own allow-flag query and is
independent of the `is_dark` value passed to allow-dark-mode-for-window:
when the window's allow-flag query answers false, every titlebar-update call
in the trace carries a light color even with preference `Dark` (for which
the resolved theme is `Dark`), and the titlebar portion of the trace is the
same for every preference value. -/
theorem titlebar_color_independent_of_is_dark (env : WinEnv) (hwnd : Nat)
    (p1 p2 : Option Theme)
    (hs : DARK_MODE_SUPPORTED env = true)
    (hallow : is_dark_mode_allowed_for_window env hwnd = false) :
    (try_window_theme env hwnd (some Theme.Dark)).1 = Theme.Dark ∧
    ((try_window_theme env hwnd (some Theme.Dark)).2.any titlebarDarkCall) = false ∧
    ((try_window_theme env hwnd p1).2.filter isTitlebarCall) =
      ((try_window_theme env hwnd p2).2.filter isTitlebarCall) := by
  refine ⟨?_, try_window_any_titlebarDark_false env hwnd (some Theme.Dark) hallow, ?_⟩
  · simp [try_window_theme, hs]
    rfl
  · have hfa : ∀ d : Bool,
        (allow_dark_mode_for_window env hwnd d).filter isTitlebarCall = [] := by
      intro d
      rcases allow_dark_mode_for_window_cases env hwnd d with hc | hc <;>
        rw [hc] <;> simp [isTitlebarCall]
    rw [try_window_theme_trace env hwnd p1 hs, try_window_theme_trace env hwnd p2 hs,
      List.filter_append, List.filter_append, hfa, hfa]

/-- Witness for C3 at a supported environment whose window allow-flag query
answers false while the system dark flag is on. -/
theorem titlebar_color_independent_of_is_dark_witness :
    (try_window_theme envWindowNotAllowed 1 (some Theme.Dark)).1 = Theme.Dark ∧
    ((try_window_theme envWindowNotAllowed 1 (some Theme.Dark)).2.any titlebarDarkCall) = false ∧
    ((try_window_theme envWindowNotAllowed 1 none).2.filter isTitlebarCall) =
      ((try_window_theme envWindowNotAllowed 1 (some Theme.Light)).2.filter isTitlebarCall) :=
  titlebar_color_independent_of_is_dark envWindowNotAllowed 1 none (some Theme.Light)
    (by decide) (by decide)

/-- C6: API-generation selection is by the build threshold 18362: with a
known build version, the app-side call is the legacy per-process toggle
(when resolved) for builds < 18362 and SetPreferredAppMode (when resolved,
with AllowDark/Default according to is_dark) for builds ≥ 18362, while the
titlebar update uses SetPropW below the threshold and the
window-composition-attribute mechanism (when resolved) at or above it. -/
theorem api_generation_selected_by_build (env : WinEnv) (ver : Nat) (is_dark_mode : Bool)
    (hwnd : Nat) (hver : WIN10_BUILD_VERSION env = some ver) :
    allow_dark_mode_for_app env is_dark_mode =
      (if ver < 18362 then
        if ALLOW_DARK_MODE_FOR_APP_found env then
          [OsCall.allowDarkModeForAppCall is_dark_mode]
        else []
      else
        if SET_PREFERRED_APP_MODE_found env then
          [OsCall.setPreferredAppModeCall
            (if is_dark_mode then PreferredAppMode.AllowDark else PreferredAppMode.Default)]
        else []) ∧
    refresh_titlebar_theme_color env hwnd =
      (if ver < 18362 then
        [OsCall.setPropWCall hwnd
          (should_use_dark_mode env && is_dark_mode_allowed_for_window env hwnd)]
      else
        if env.setWindowCompositionAttributeFound then
          [OsCall.setWindowCompositionAttributeCall hwnd
            (should_use_dark_mode env && is_dark_mode_allowed_for_window env hwnd)]
        else []) := by
  constructor
  · simp [allow_dark_mode_for_app, hver]
  · simp [refresh_titlebar_theme_color, hver]

/-- Witness for C6 at a legacy-generation build (17763) and a
newer-generation build (19000), every entry point present. -/
theorem api_generation_selected_by_build_witness :
    (allow_dark_mode_for_app envLegacyBuild true = [OsCall.allowDarkModeForAppCall true] ∧
      refresh_titlebar_theme_color envLegacyBuild 1 = [OsCall.setPropWCall 1 true]) ∧
    (allow_dark_mode_for_app envNewBuild false =
        [OsCall.setPreferredAppModeCall PreferredAppMode.Default] ∧
      refresh_titlebar_theme_color envNewBuild 1 =
        [OsCall.setWindowCompositionAttributeCall 1 true]) := by
  constructor
  · exact api_generation_selected_by_build envLegacyBuild 17763 true 1 (by decide)
  · exact api_generation_selected_by_build envNewBuild 19000 false 1 (by decide)

/-- C7: for every combination of available/missing dynamic entry points the
two entry functions return a valid theme (Light or Dark) and never an error
(they are total); each boolean query defaults to false when its entry point
is missing, and each best-effort call is a no-op (empty trace) when its
entry point is missing. -/
theorem missing_entry_points_never_error (env : WinEnv) (pref : Option Theme) (hwnd : Nat)
    (d : Bool) :
    ((try_app_theme env pref).1 = Theme.Light ∨ (try_app_theme env pref).1 = Theme.Dark) ∧
    ((try_window_theme env hwnd pref).1 = Theme.Light ∨
      (try_window_theme env hwnd pref).1 = Theme.Dark) ∧
    should_apps_use_dark_mode env =
      (getUxthemeProc env UXTHEME_SHOULDAPPSUSEDARKMODE_ORDINAL &&
        env.shouldAppsUseDarkModeResult) ∧
    is_dark_mode_allowed_for_window env hwnd =
      (getUxthemeProc env UXTHEME_ISDARKMODEALLOWEDFORWINDOW_ORDINAL &&
        env.isDarkModeAllowedForWindowResult hwnd) ∧
    (ALLOW_DARK_MODE_FOR_APP_found env = true ∨ allow_dark_mode_for_app env d = []) ∧
    (getUxthemeProc env UXTHEME_REFRESHIMMERSIVECOLORPOLICYSTATE_ORDINAL = true ∨
      refresh_immersive_color_policy_state env = []) ∧
    (getUxthemeProc env UXTHEME_ALLOWDARKMODEFORWINDOW_ORDINAL = true ∨
      allow_dark_mode_for_window env hwnd d = []) := by
  refine ⟨?_, ?_, ?_, ?_, ?_, ?_, ?_⟩
  · cases h : (try_app_theme env pref).1
    · exact Or.inl rfl
    · exact Or.inr rfl
  · cases h : (try_window_theme env hwnd pref).1
    · exact Or.inl rfl
    · exact Or.inr rfl
  · by_cases h : getUxthemeProc env UXTHEME_SHOULDAPPSUSEDARKMODE_ORDINAL = true <;>
      simp [should_apps_use_dark_mode, h]
  · by_cases h : getUxthemeProc env UXTHEME_ISDARKMODEALLOWEDFORWINDOW_ORDINAL = true <;>
      simp [is_dark_mode_allowed_for_window, h]
  · by_cases h : ALLOW_DARK_MODE_FOR_APP_found env = true
    · exact Or.inl h
    · refine Or.inr ?_
      simp only [Bool.not_eq_true] at h
      have h2 : SET_PREFERRED_APP_MODE_found env = false := h
      unfold allow_dark_mode_for_app
      cases WIN10_BUILD_VERSION env with
      | none => rfl
      | some ver =>
        by_cases hv : ver < 18362
        · simp [hv, h]
        · simp [hv, h2]
  · by_cases h : getUxthemeProc env UXTHEME_REFRESHIMMERSIVECOLORPOLICYSTATE_ORDINAL = true
    · exact Or.inl h
    · refine Or.inr ?_
      simp only [Bool.not_eq_true] at h
      simp [refresh_immersive_color_policy_state, h]
  · by_cases h : getUxthemeProc env UXTHEME_ALLOWDARKMODEFORWINDOW_ORDINAL = true
    · exact Or.inl h
    · refine Or.inr ?_
      simp only [Bool.not_eq_true] at h
      simp [allow_dark_mode_for_window, h]

/-- C9: when the IsDarkModeAllowedForWindow entry point (ordinal 137) is
missing, the window allow-flag query answers false, and therefore for every
window, every preference value and every system dark-mode setting, no
titlebar-update call in the trace of `try_window_theme` carries a dark
color. -/
theorem missing_allow_query_gives_light_titlebar (env : WinEnv) (hwnd : Nat)
    (pref : Option Theme)
    (h : getUxthemeProc env UXTHEME_ISDARKMODEALLOWEDFORWINDOW_ORDINAL = false) :
    is_dark_mode_allowed_for_window env hwnd = false ∧
    ((try_window_theme env hwnd pref).2.any titlebarDarkCall) = false := by
  have hallow : is_dark_mode_allowed_for_window env hwnd = false := by
    simp [is_dark_mode_allowed_for_window, h]
  exact ⟨hallow, try_window_any_titlebarDark_false env hwnd pref hallow⟩

/-- Witness for C9 at a supported environment where ordinal 137 is the only
missing uxtheme export, the system dark flag is on and preference is
`Dark`. -/
theorem missing_allow_query_gives_light_titlebar_witness :
    is_dark_mode_allowed_for_window envMissing137 1 = false ∧
    ((try_window_theme envMissing137 1 (some Theme.Dark)).2.any titlebarDarkCall) = false :=
  missing_allow_query_gives_light_titlebar envMissing137 1 (some Theme.Dark) (by decide)
